import Mathlib

/-!
Shallow embedding of the PySceneDetect repository core
(`src/scenedetect/scene_manager.py`, `src/scenedetect/video_stream.py`,
`src/scenedetect.py`, `src/scenedetect/cli/context.py`) used to settle the
specification claims.  Machine integers are modelled as `Nat` (all the
quantities involved are frame counts, pixel widths and millisecond values,
non-negative in every reachable state); Python lists are Lean lists;
fallible code returns `Option`/`Except`.
-/

namespace PySceneDetect

/-- Frames are opaque pixel buffers; their contents are never inspected by
the orchestrator, so any inhabited type with decidable equality serves. -/
abbrev Frame := Nat

/-- Error raised by `SceneManager.get_scene_list` (Python
`NotImplementedError`). -/
inductive PyError where
  | notImplemented
deriving DecidableEq, Repr

/-- Error raised on a metric-name registration collision (Python
`scenedetect.stats_manager.FrameMetricRegistered`). -/
inductive FrameMetricRegistered where
  | collision
deriving DecidableEq, Repr

/-- Modelled from the spec: the class `scenedetect.stats_manager.StatsManager`
is imported by `scene_manager.py` and `cli/context.py` but its module is not
part of the repository sources given; per spec section 4.2 the cache carries
the set of metric names registered so far (the per-frame numeric table is not
needed by any claim). -/
structure StatsManager where
  registered_metrics : List String
deriving Repr

/-- Modelled from the spec: `StatsManager.register_metrics` (module missing
from the sources).  Spec section 4.2: registration "fails with
MetricCollision if a detector tries to register a name already owned by a
different detector"; on success the names become registered. -/
def StatsManager.register_metrics (st : StatsManager) (metric_keys : List String) :
    Except FrameMetricRegistered StatsManager :=
  if metric_keys.any (fun k => st.registered_metrics.contains k) then
    Except.error FrameMetricRegistered.collision
  else
    Except.ok { registered_metrics := st.registered_metrics ++ metric_keys }

/-- A detector as used by `SceneManager`: `process_frame(frame_num, frame_im)`
returns a pair `(cut_detected, cut_frame)` (see the unpacking at
`scene_manager.py:113`), and `get_metrics()` returns the metric names the
detector registers with the stats manager (`scene_manager.py:80`). -/
structure Detector where
  process_frame : Nat → Frame → Bool × Nat
  get_metrics : List String

/-- `SceneManager.__init__` state (`scene_manager.py:68-73`): the cutting
list, the detector list and the optional stats manager.  The
`_base_timecode` field is initialised to `None` and never used afterwards,
so it is omitted. -/
structure SceneManager where
  cutting_list : List Nat
  detector_list : List Detector
  stats_manager : Option StatsManager

/-- `SceneManager.add_cut` (`scene_manager.py:93-96`): appends `frame_num`
to the cutting list (Python `list.append`). -/
def SceneManager.add_cut (sm : SceneManager) (frame_num : Nat) : SceneManager :=
  { sm with cutting_list := sm.cutting_list ++ [frame_num] }

/-- `SceneManager._get_cutting_list` (`scene_manager.py:104-106`): returns
`sorted(self._cutting_list)`.  Python `sorted` is a stable sort on the
values; over `Nat` any sort computing an ordered permutation yields the
same value list, so insertion sort is used. -/
def SceneManager.get_cutting_list (sm : SceneManager) : List Nat :=
  List.insertionSort (· ≤ ·) sm.cutting_list

/-- `SceneManager.get_scene_list` (`scene_manager.py:99-101`): the body is
`raise NotImplementedError()` unconditionally. -/
def SceneManager.get_scene_list (sm : SceneManager) :
    Except PyError (List (Nat × Nat)) :=
  Except.error PyError.notImplemented

/-- `SceneManager.add_detector` (`scene_manager.py:75-80`): sets the
back-pointer `detector.stats_manager` (no observable effect here), appends
the detector to the detector list, then, when a stats manager is present,
calls `register_metrics(detector.get_metrics())`, which may raise
`FrameMetricRegistered`.  The raised error is the second component; note
the detector has already been appended when the error propagates, exactly
as in the source. -/
def SceneManager.add_detector (sm : SceneManager) (d : Detector) :
    SceneManager × Option FrameMetricRegistered :=
  let sm1 : SceneManager := { sm with detector_list := sm.detector_list ++ [d] }
  match sm.stats_manager with
  | none => (sm1, none)
  | some st =>
    match st.register_metrics d.get_metrics with
    | Except.error e => (sm1, some e)
    | Except.ok st1 => ({ sm1 with stats_manager := some st1 }, none)

/-- One iteration of the detector loop inside `SceneManager.process_frame`
(`scene_manager.py:112-116`): call the detector on the frame and, when it
reports a cut, `add_cut(cut_frame)`. -/
def detector_step (frame_num : Nat) (frame_im : Frame) (acc : SceneManager)
    (detector : Detector) : SceneManager :=
  let r := detector.process_frame frame_num frame_im
  if r.1 then acc.add_cut r.2 else acc

/-- `SceneManager.process_frame` (`scene_manager.py:109-116`): runs every
detector in `detector_list` in order on `(frame_num, frame_im)` and calls
`add_cut(cut_frame)` whenever a detector reports a cut. -/
def SceneManager.process_frame (sm : SceneManager) (frame_num : Nat)
    (frame_im : Frame) : SceneManager :=
  sm.detector_list.foldl (detector_step frame_num frame_im) sm

/-- The loop guard `end_frame is not None and curr_frame > end_frame`
(`scene_manager.py:162`). -/
def past_end (end_frame : Option Nat) (curr_frame : Nat) : Bool :=
  match end_frame with
  | none => false
  | some e => curr_frame > e

/-- The `while True` loop of `SceneManager.detect_scenes`
(`scene_manager.py:161-168`).  The frame source is modelled by the list of
frames its successive `read()` calls yield (`[]` models `read` returning
`False`, the end-of-stream signal).  Returns the final manager state, the
final `curr_frame`, and — as instrumentation used by the temporal claims —
the list of frame indices handed to `process_frame`, in call order. -/
def SceneManager.detect_loop (sm : SceneManager) (frames : List Frame)
    (curr_frame : Nat) (end_frame : Option Nat) :
    SceneManager × Nat × List Nat :=
  match frames with
  | [] => (sm, curr_frame, [])
  | frame_im :: rest =>
    if past_end end_frame curr_frame then (sm, curr_frame, [])
    else
      let next := (sm.process_frame curr_frame frame_im).detect_loop rest
        (curr_frame + 1) end_frame
      (next.1, next.2.1, curr_frame :: next.2.2)

/-- `SceneManager.detect_scenes` (`scene_manager.py:119-181`), with
`start_time`/`end_time` already converted to frame numbers (the source
accepts `int` directly via the `int(start_time)`/`int(end_time)` branches;
the `FrameTimecode` conversion lives in a module not among the sources).
The first component is the mutated manager, the second is the Python
return value: `num_frames = curr_frame - start_frame` — a single integer. -/
def SceneManager.detect_scenes (sm : SceneManager) (frames : List Frame)
    (start_frame : Nat) (end_frame : Option Nat) : SceneManager × Nat :=
  let r := sm.detect_loop frames start_frame end_frame
  (r.1, r.2.1 - start_frame)

/-- `DEFAULT_MIN_WIDTH` (`video_stream.py:68`). -/
def DEFAULT_MIN_WIDTH : Nat := 260

/-- `compute_downscale_factor` (`video_stream.py:72-89`):
`assert not (frame_width < 1 or effective_width < 1)` then
`return 1 if frame_width < effective_width else frame_width // effective_width`.
`none` models the `AssertionError`; Python floor division on the reachable
(positive) domain coincides with `Nat` division. -/
def compute_downscale_factor (frame_width effective_width : Nat) : Option Nat :=
  if frame_width < 1 ∨ effective_width < 1 then none
  else if frame_width < effective_width then some 1
  else some (frame_width / effective_width)

/-- Defined from the words of spec section 4.5 (for the refinement claim
about the downscale selector): returns 1 if `frame_width <
target_min_width`, otherwise `floor(frame_width / target_min_width)`. -/
def select_factor (frame_width target_min_width : Nat) : Nat :=
  if frame_width < target_min_width then 1
  else frame_width / target_min_width

/-- Python `"%02d" % n`: decimal representation left-padded with zeros to
at least two characters. -/
def pad2 (n : Nat) : String :=
  if n < 10 then "0" ++ toString n else toString n

/-- Zero-padding to at least three characters, used by the claimed
(spec-side) timecode format for the millisecond field. -/
def pad3 (n : Nat) : String :=
  if n < 10 then "00" ++ toString n
  else if n < 100 then "0" ++ toString n
  else toString n

/-- `get_timecode_string` (`scenedetect.py:183-213`): successive
subtraction extracts hours, minutes, seconds and the millisecond
remainder; the output is `"%02d:%02d:%02d.%d" % (HH, MM, SS, nn)` when
`show_msec` and `"%02d:%02d:%02d"` otherwise.  Note the millisecond field
uses `"%d"`, with no zero padding. -/
def get_timecode_string (time_msec : Nat) (show_msec : Bool) : String :=
  let out_HH := time_msec / 3600000
  let nn1 := time_msec - out_HH * 3600000
  let out_MM := nn1 / 60000
  let nn2 := nn1 - out_MM * 60000
  let out_SS := nn2 / 1000
  let nn3 := nn2 - out_SS * 1000
  if show_msec then
    pad2 out_HH ++ ":" ++ pad2 out_MM ++ ":" ++ pad2 out_SS ++ "." ++ toString nn3
  else
    pad2 out_HH ++ ":" ++ pad2 out_MM ++ ":" ++ pad2 out_SS

/-- The timecode string format as the claim states it: fields from
`div`/`mod` arithmetic, with the fractional part `t mod 1000` zero-padded
to three digits. -/
def claimed_timecode_string (t : Nat) (show_msec : Bool) : String :=
  if show_msec then
    pad2 (t / 3600000) ++ ":" ++ pad2 (t % 3600000 / 60000) ++ ":" ++
      pad2 (t % 60000 / 1000) ++ "." ++ pad3 (t % 1000)
  else
    pad2 (t / 3600000) ++ ":" ++ pad2 (t % 3600000 / 60000) ++ ":" ++
      pad2 (t % 60000 / 1000)

/-- The amended timecode string format: identical to the claim except that
the fractional part is the plain decimal representation of `t mod 1000`
with no zero padding (the `"%d"` conversion of the source). -/
def amended_timecode_string (t : Nat) (show_msec : Bool) : String :=
  if show_msec then
    pad2 (t / 3600000) ++ ":" ++ pad2 (t % 3600000 / 60000) ++ ":" ++
      pad2 (t % 60000 / 1000) ++ "." ++ toString (t % 1000)
  else
    pad2 (t / 3600000) ++ ":" ++ pad2 (t % 3600000 / 60000) ++ ":" ++
      pad2 (t % 60000 / 1000)

/-- Result kind of the legacy prototype detectors (`scenedetect.py`):
`process_frame` may in principle report a transition of kind `cut`, `in`
or `out` (the comment at `scenedetect.py:81`); returning `False` — `none`
here — means no scene change. -/
inductive CutKind where
  | cut
  | fadeIn
  | fadeOut
deriving DecidableEq, Repr

/-- `SceneDetector.process_frame` (`scenedetect.py:77-81`): the prototype
base class returns `False` for every pair of frames. -/
def SceneDetector.process_frame (current_frame last_frame : Frame) :
    Option CutKind :=
  none

/-- `ThresholdDetector.process_frame` (`scenedetect.py:114-118`): returns
`False` for every frame. -/
def ThresholdDetector.process_frame (img : Frame) : Option CutKind :=
  none

/-- `HSVDetector.process_frame` (`scenedetect.py:133-136`): returns
`False` for every frame. -/
def HSVDetector.process_frame (img : Frame) : Option CutKind :=
  none

/-- `EdgeDetector.process_frame` (`scenedetect.py:149-152`): returns
`False` for every frame. -/
def EdgeDetector.process_frame (img : Frame) : Option CutKind :=
  none

/-- Cut events emitted at one frame by a pipeline built from the four
legacy prototype detectors: each detector is consulted and contributes the
frame index whenever it reports a scene change. -/
def legacy_frame_events (frame_num : Nat) (curr last : Frame) : List Nat :=
  (if (SceneDetector.process_frame curr last).isSome then [frame_num] else []) ++
  (if (ThresholdDetector.process_frame curr).isSome then [frame_num] else []) ++
  (if (HSVDetector.process_frame curr).isSome then [frame_num] else []) ++
  (if (EdgeDetector.process_frame curr).isSome then [frame_num] else [])

/-- A pipeline run over the legacy prototype detectors: feeds each frame
(paired with its predecessor, itself for the first) to all four detectors
in turn and accumulates the emitted cut events. -/
def run_legacy_pipeline : List Frame → Nat → List Nat
  | [], _ => []
  | f :: rest, n => legacy_frame_events n f f ++ run_legacy_pipeline rest (n + 1)

/-- A detector that reports a cut at every frame it is given (used as a
concrete test input). -/
def dup_detector : Detector := ⟨fun n _ => (true, n), []⟩

/-- A detector that reports a cut only at frame 1 (used as a concrete test
input). -/
def cut_at_one_detector : Detector := ⟨fun n _ => (n == 1, n), []⟩

/-- A detector that never reports a cut and registers the metric name
`content_val` (used as a concrete test input). -/
def content_detector : Detector := ⟨fun _ _ => (false, 0), ["content_val"]⟩

/-- Claim C1, counterexample: two detectors each report frame 5 as a cut in
the same `process_frame` call; the accumulated cut collection keeps both
entries, and the list returned by the cutting-list accessor is `[5, 5]` —
two entries for index 5, not exactly one as the claim states. -/
theorem cutting_list_dup_counterexample :
    ((SceneManager.mk [] [dup_detector, dup_detector] none).process_frame 5 7).get_cutting_list
      = [5, 5] ∧
    ((SceneManager.mk [] [dup_detector, dup_detector] none).process_frame 5 7).get_cutting_list.count 5
      = 2 :=
  ⟨rfl, rfl⟩

/-- Claim C1, amended: the orchestrator accumulates every reported cut in a
list by appending (duplicate frame indices are retained, not collapsed),
and the cutting-list accessor returns that list sorted ascending — a sorted
permutation of the accumulated cuts, with duplicates preserved. -/
theorem get_cutting_list_sorted_perm (sm : SceneManager) :
    sm.get_cutting_list.Sorted (· ≤ ·) ∧ sm.get_cutting_list.Perm sm.cutting_list :=
  ⟨List.sorted_insertionSort (· ≤ ·) sm.cutting_list,
   List.perm_insertionSort (· ≤ ·) sm.cutting_list⟩

/-- Claim C2: evaluation of `detect_scenes` at a failing input.  A
three-frame source with a detector that cuts only at frame 1 yields the
bare integer 3 (`num_frames = curr_frame - start_frame`) as the Python
return value, while the number of cuts found is 1: the function returns a
single count, not the pair of counts its own docstring and the claim
describe. -/
theorem detect_scenes_returns_single_count :
    (SceneManager.detect_scenes ⟨[], [cut_at_one_detector], none⟩ [7, 7, 7] 0 none).2 = 3 ∧
    (SceneManager.detect_scenes ⟨[], [cut_at_one_detector], none⟩ [7, 7, 7] 0 none).1.cutting_list
      = [1] :=
  ⟨rfl, rfl⟩

/-- Claim C3: `get_scene_list` unconditionally raises `NotImplementedError`
for every manager state; it never returns a scene list, let alone a
partition of the video bounds. -/
theorem get_scene_list_raises (sm : SceneManager) :
    sm.get_scene_list = Except.error PyError.notImplemented :=
  rfl

/-- Claim C4, counterexample: at `frame_width = 500`,
`target_min_width = 260` (so `frame_width ≥ target_min_width`) the selector
returns factor 1, and the claimed upper bound
`frame_width / factor < 1.5 * target_min_width` — cleared of denominators,
`2 * frame_width < 3 * (target_min_width * factor)` — fails: the effective
width 500 is not below 390. -/
theorem downscale_range_counterexample :
    compute_downscale_factor 500 260 = some 1 ∧ ¬(2 * 500 < 3 * (260 * 1)) :=
  ⟨rfl, by decide⟩

/-- Claim C4, amended: for `frame_width ≥ target_min_width ≥ 1` the
returned factor `f` always satisfies
`target_min_width ≤ frame_width / f < 2 * target_min_width` (inequalities
cleared of denominators below), and the claimed tighter bound
`frame_width / f < 1.5 * target_min_width` holds whenever
`frame_width ≥ 2 * target_min_width`. -/
theorem downscale_factor_range_amended (w t : Nat) (ht : 1 ≤ t) (hw : t ≤ w) :
    ∃ f, compute_downscale_factor w t = some f ∧
      t * f ≤ w ∧ w < 2 * (t * f) ∧ (2 * t ≤ w → 2 * w < 3 * (t * f)) := by
  have hsome : compute_downscale_factor w t = some (w / t) := by
    unfold compute_downscale_factor
    rw [if_neg (by omega), if_neg (by omega)]
  have hq1 : 1 ≤ w / t := (Nat.one_le_div_iff (by omega)).mpr hw
  have hdm : t * (w / t) + w % t = w := Nat.div_add_mod w t
  have hr : w % t < t := Nat.mod_lt w (by omega)
  have hta : t * 1 ≤ t * (w / t) := Nat.mul_le_mul_left t hq1
  rw [Nat.mul_one] at hta
  refine ⟨w / t, hsome, ?_, ?_, ?_⟩
  · generalize t * (w / t) = a at hdm hta ⊢
    omega
  · generalize t * (w / t) = a at hdm hta ⊢
    omega
  · intro h2t
    have hq2 : 2 ≤ w / t := by
      rcases Nat.lt_or_ge (w / t) 2 with h | h
      · have hq1' : w / t = 1 := by omega
        rw [hq1', Nat.mul_one] at hdm
        omega
      · exact h
    have htb : t * 2 ≤ t * (w / t) := Nat.mul_le_mul_left t hq2
    generalize t * (w / t) = a at hdm htb ⊢
    omega

/-- Witness for the amended claim C4, at the concrete input (1000, 260). -/
theorem downscale_factor_range_amended_witness :
    ∃ f, compute_downscale_factor 1000 260 = some f ∧
      260 * f ≤ 1000 ∧ 1000 < 2 * (260 * f) ∧
      (2 * 260 ≤ 1000 → 2 * 1000 < 3 * (260 * f)) :=
  downscale_factor_range_amended 1000 260 (by decide) (by decide)

/-- Claim C5: on positive inputs, the downscale selector in the source
computes exactly the function described by the spec — 1 when
`frame_width < target_min_width` and `floor(frame_width / target_min_width)`
otherwise — and the two concrete examples hold. -/
theorem compute_downscale_factor_refines_select_factor (w t : Nat)
    (hw : 1 ≤ w) (ht : 1 ≤ t) :
    compute_downscale_factor w t = some (select_factor w t) ∧
    select_factor 1000 260 = 3 ∧ select_factor 200 260 = 1 := by
  refine ⟨?_, by decide, by decide⟩
  unfold compute_downscale_factor select_factor
  rw [if_neg (by omega)]
  by_cases h : w < t
  · rw [if_pos h, if_pos h]
  · rw [if_neg h, if_neg h]

/-- Witness for claim C5, at the concrete input (1000, 260). -/
theorem compute_downscale_factor_refines_select_factor_witness :
    compute_downscale_factor 1000 260 = some (select_factor 1000 260) ∧
    select_factor 1000 260 = 3 ∧ select_factor 200 260 = 1 :=
  compute_downscale_factor_refines_select_factor 1000 260 (by decide) (by decide)

/-- Claim C9: on any pair of arguments that are both at least 1 the
assertion in `compute_downscale_factor` holds and the function returns a
factor of at least 1 (never 0); when either argument is below 1 the
assertion fails (modelled as `none`). -/
theorem compute_downscale_factor_safe (w t : Nat) :
    (1 ≤ w → 1 ≤ t → ∃ f, compute_downscale_factor w t = some f ∧ 1 ≤ f) ∧
    (w < 1 ∨ t < 1 → compute_downscale_factor w t = none) := by
  constructor
  · intro hw ht
    unfold compute_downscale_factor
    rw [if_neg (by omega)]
    by_cases h : w < t
    · exact ⟨1, by rw [if_pos h], le_refl 1⟩
    · refine ⟨w / t, by rw [if_neg h], ?_⟩
      exact (Nat.one_le_div_iff (by omega)).mpr (Nat.le_of_not_lt h)
  · intro h
    unfold compute_downscale_factor
    rw [if_pos h]

/-- Witness for claim C9: both branches applied at concrete inputs. -/
theorem compute_downscale_factor_safe_witness :
    (∃ f, compute_downscale_factor 3 2 = some f ∧ 1 ≤ f) ∧
    compute_downscale_factor 0 5 = none :=
  ⟨(compute_downscale_factor_safe 3 2).1 (by decide) (by decide),
   (compute_downscale_factor_safe 0 5).2 (Or.inl (by decide))⟩

/-- Claim C10: every legacy prototype detector — the `SceneDetector` base
and the Threshold, HSV and Edge variants — returns `False` (no scene
change) on every input frame, and consequently a pipeline built from these
detectors emits no cut event on any frame sequence. -/
theorem legacy_detectors_never_cut :
    (∀ c l, SceneDetector.process_frame c l = none) ∧
    (∀ i, ThresholdDetector.process_frame i = none) ∧
    (∀ i, HSVDetector.process_frame i = none) ∧
    (∀ i, EdgeDetector.process_frame i = none) ∧
    (∀ frames n, run_legacy_pipeline frames n = []) := by
  refine ⟨fun _ _ => rfl, fun _ => rfl, fun _ => rfl, fun _ => rfl, ?_⟩
  intro frames
  induction frames with
  | nil => intro n; rfl
  | cons f rest ih =>
    intro n
    simpa [run_legacy_pipeline, legacy_frame_events, SceneDetector.process_frame,
      ThresholdDetector.process_frame, HSVDetector.process_frame,
      EdgeDetector.process_frame] using ih (n + 1)

/-- Claim C8, counterexample: at one millisecond the source formats the
fractional field with no zero padding (`"%d"`), producing `00:00:00.1`,
while the claim requires the three-digit form `00:00:00.001`. -/
theorem get_timecode_string_counterexample :
    get_timecode_string 1 true = "00:00:00.1" ∧
    claimed_timecode_string 1 true = "00:00:00.001" ∧
    get_timecode_string 1 true ≠ claimed_timecode_string 1 true :=
  ⟨rfl, rfl, by decide⟩

/-- Claim C8, amended: for every non-negative millisecond value `t`, the
clock string has the claimed `div`/`mod` field arithmetic — hours
`t / 3600000`, minutes `t % 3600000 / 60000`, seconds `t % 60000 / 1000`,
each zero-padded to two digits, fractional part `t % 1000` and omitted
when milliseconds display is disabled — except that the fractional part is
printed without zero padding. -/
theorem get_timecode_string_amended (t : Nat) (show_msec : Bool) :
    get_timecode_string t show_msec = amended_timecode_string t show_msec := by
  have h1 : t - t / 3600000 * 3600000 = t % 3600000 := by omega
  have h2 : t % 3600000 - t % 3600000 / 60000 * 60000 = t % 60000 := by omega
  have h3 : t % 60000 - t % 60000 / 1000 * 1000 = t % 1000 := by omega
  simp only [get_timecode_string, amended_timecode_string]
  rw [h1, h2, h3]

/-- The step function of `SceneManager.process_frame` only ever appends to
the cutting list and leaves the detector list and stats manager unchanged. -/
theorem detector_step_cutting (n : Nat) (f : Frame) (acc : SceneManager)
    (d : Detector) :
    ∃ new, (detector_step n f acc d).cutting_list = acc.cutting_list ++ new ∧
      (detector_step n f acc d).detector_list = acc.detector_list ∧
      (detector_step n f acc d).stats_manager = acc.stats_manager := by
  unfold detector_step SceneManager.add_cut
  by_cases h : (d.process_frame n f).1 = true
  · exact ⟨[(d.process_frame n f).2], by simp [h], by simp [h], by simp [h]⟩
  · exact ⟨[], by simp [h], by simp [h], by simp [h]⟩

/-- Folding the detector step over any detector list only ever appends to
the cutting list and leaves the detector list and stats manager unchanged. -/
theorem foldl_detector_step_cutting (n : Nat) (f : Frame) (ds : List Detector) :
    ∀ acc : SceneManager,
      ∃ new, (ds.foldl (detector_step n f) acc).cutting_list = acc.cutting_list ++ new ∧
        (ds.foldl (detector_step n f) acc).detector_list = acc.detector_list ∧
        (ds.foldl (detector_step n f) acc).stats_manager = acc.stats_manager := by
  induction ds with
  | nil => intro acc; exact ⟨[], by simp, rfl, rfl⟩
  | cons d rest ih =>
    intro acc
    obtain ⟨n1, h1, h2, h3⟩ := detector_step_cutting n f acc d
    obtain ⟨n2, g1, g2, g3⟩ := ih (detector_step n f acc d)
    exact ⟨n1 ++ n2,
      by rw [List.foldl_cons, g1, h1, List.append_assoc],
      by rw [List.foldl_cons, g2, h2],
      by rw [List.foldl_cons, g3, h3]⟩

/-- `process_frame` only ever appends to the cutting list. -/
theorem process_frame_cutting (sm : SceneManager) (n : Nat) (f : Frame) :
    ∃ new, (sm.process_frame n f).cutting_list = sm.cutting_list ++ new ∧
      (sm.process_frame n f).detector_list = sm.detector_list ∧
      (sm.process_frame n f).stats_manager = sm.stats_manager :=
  foldl_detector_step_cutting n f sm.detector_list sm

/-- Across a whole `detect_scenes` loop, the cutting list of the initial
state is only extended, never truncated or reordered. -/
theorem detect_loop_cutting (frames : List Frame) :
    ∀ (sm : SceneManager) (curr : Nat) (endf : Option Nat),
      ∃ new, (sm.detect_loop frames curr endf).1.cutting_list
        = sm.cutting_list ++ new := by
  induction frames with
  | nil =>
    intro sm curr endf
    exact ⟨[], by simp [SceneManager.detect_loop]⟩
  | cons f rest ih =>
    intro sm curr endf
    unfold SceneManager.detect_loop
    by_cases h : past_end endf curr = true
    · rw [if_pos h]
      exact ⟨[], by simp⟩
    · rw [if_neg h]
      obtain ⟨n1, h1, _, _⟩ := process_frame_cutting sm curr f
      obtain ⟨n2, h2⟩ := ih (sm.process_frame curr f) (curr + 1) endf
      refine ⟨n1 ++ n2, ?_⟩
      show ((sm.process_frame curr f).detect_loop rest (curr + 1) endf).1.cutting_list
        = sm.cutting_list ++ (n1 ++ n2)
      rw [h2, h1, List.append_assoc]

/-- The final frame counter of the loop never falls below its starting
value. -/
theorem detect_loop_curr_le (frames : List Frame) :
    ∀ (sm : SceneManager) (curr : Nat) (endf : Option Nat),
      curr ≤ (sm.detect_loop frames curr endf).2.1 := by
  induction frames with
  | nil => intro sm curr endf; simp [SceneManager.detect_loop]
  | cons f rest ih =>
    intro sm curr endf
    unfold SceneManager.detect_loop
    by_cases h : past_end endf curr = true
    · rw [if_pos h]
    · rw [if_neg h]
      have := ih (sm.process_frame curr f) (curr + 1) endf
      show curr ≤ ((sm.process_frame curr f).detect_loop rest (curr + 1) endf).2.1
      omega

/-- The trace of frame indices handed to `process_frame` is the contiguous
ascending range from the start counter to the final counter. -/
theorem detect_loop_trace_eq (frames : List Frame) :
    ∀ (sm : SceneManager) (curr : Nat) (endf : Option Nat),
      (sm.detect_loop frames curr endf).2.2
        = List.range' curr ((sm.detect_loop frames curr endf).2.1 - curr) := by
  induction frames with
  | nil => intro sm curr endf; simp [SceneManager.detect_loop]
  | cons f rest ih =>
    intro sm curr endf
    unfold SceneManager.detect_loop
    by_cases h : past_end endf curr = true
    · rw [if_pos h]; simp
    · rw [if_neg h]
      have hle := detect_loop_curr_le rest (sm.process_frame curr f) (curr + 1) endf
      have ht := ih (sm.process_frame curr f) (curr + 1) endf
      show curr :: ((sm.process_frame curr f).detect_loop rest (curr + 1) endf).2.2
        = List.range' curr
          (((sm.process_frame curr f).detect_loop rest (curr + 1) endf).2.1 - curr)
      rw [ht]
      have hsz : ((sm.process_frame curr f).detect_loop rest (curr + 1) endf).2.1 - curr
          = (((sm.process_frame curr f).detect_loop rest (curr + 1) endf).2.1 - (curr + 1)) + 1 := by
        omega
      rw [hsz, List.range'_succ]

/-- With an end bound `E`, every frame index handed to `process_frame`
stays at or below `E`. -/
theorem detect_loop_trace_le (frames : List Frame) :
    ∀ (sm : SceneManager) (curr E : Nat),
      ∀ i ∈ (sm.detect_loop frames curr (some E)).2.2, i ≤ E := by
  induction frames with
  | nil =>
    intro sm curr E i hi
    simp [SceneManager.detect_loop] at hi
  | cons f rest ih =>
    intro sm curr E i hi
    unfold SceneManager.detect_loop at hi
    by_cases h : past_end (some E) curr = true
    · rw [if_pos h] at hi
      simp at hi
    · rw [if_neg h] at hi
      have hc : curr ≤ E := by
        simp [past_end] at h
        omega
      replace hi : i ∈ curr ::
          ((sm.process_frame curr f).detect_loop rest (curr + 1) (some E)).2.2 := hi
      rcases List.mem_cons.mp hi with h1 | h2
      · omega
      · exact ih (sm.process_frame curr f) (curr + 1) E i h2

/-- Claim C6: during a `detect_scenes` run with end bound `E`, (1) no
frame index handed to the detectors exceeds `E`; (2) the frame indices are
handed out in strictly increasing order, each frame being fed to the whole
detector list (`process_frame` iterates all detectors in registration
order) before the loop advances; (3) the cut list only grows — the run
appends entries to the initial cutting list and never removes or reorders
them. -/
theorem detect_scenes_temporal (sm : SceneManager) (frames : List Frame)
    (start E : Nat) :
    (∀ i ∈ (sm.detect_loop frames start (some E)).2.2, i ≤ E) ∧
    ((sm.detect_loop frames start (some E)).2.2).Pairwise (· < ·) ∧
    (∃ new, (sm.detect_loop frames start (some E)).1.cutting_list
      = sm.cutting_list ++ new) := by
  refine ⟨detect_loop_trace_le frames sm start E, ?_,
    detect_loop_cutting frames sm start (some E)⟩
  rw [detect_loop_trace_eq frames sm start (some E)]
  exact List.pairwise_lt_range' start _

/-- Witness for claim C6, at a concrete run: one always-cut detector,
three frames, start 0, end bound 1 (the trace is `[0, 1]`). -/
theorem detect_scenes_temporal_witness :
    (0 : Nat) ≤ 1 ∧
    ∃ new, ((SceneManager.mk [] [dup_detector] none).detect_loop [7, 7, 7] 0 (some 1)).1.cutting_list
      = [] ++ new :=
  ⟨(detect_scenes_temporal (SceneManager.mk [] [dup_detector] none) [7, 7, 7] 0 1).1
      0 (by decide),
   (detect_scenes_temporal (SceneManager.mk [] [dup_detector] none) [7, 7, 7] 0 1).2.2⟩

/-- Claim C7, counterexample: when the orchestrator was built without a
stats manager (`SceneManager(stats_manager=None)`, as the CLI does when no
stats file is given), adding the same detector — metric names fully
overlapping — twice raises no error at all: `add_detector` only delegates
to the metric cache when one is present. -/
theorem add_detector_no_stats_counterexample :
    "content_val" ∈ content_detector.get_metrics ∧
    (((SceneManager.mk [] [] none).add_detector content_detector).1.add_detector
      content_detector).2 = none :=
  ⟨by decide, rfl⟩

/-- Claim C7, amended: when the orchestrator has a stats manager, adding a
second detector whose metric names overlap those of an already added
detector fails with the metric collision error at `add_detector` time —
the error is produced by the `add_detector` call itself, and the cutting
list is untouched, so no frame processing is involved. -/
theorem add_detector_collision_amended (sm : SceneManager) (st : StatsManager)
    (d1 d2 : Detector) (name : String)
    (hst : sm.stats_manager = some st)
    (h1 : (sm.add_detector d1).2 = none)
    (hm1 : name ∈ d1.get_metrics) (hm2 : name ∈ d2.get_metrics) :
    ((sm.add_detector d1).1.add_detector d2).2.isSome = true ∧
    ((sm.add_detector d1).1.add_detector d2).1.cutting_list = sm.cutting_list := by
  cases hreg : st.register_metrics d1.get_metrics with
  | error e =>
    exfalso
    have hcontra : (sm.add_detector d1).2 = some e := by
      simp only [SceneManager.add_detector, hst, hreg]
    rw [h1] at hcontra
    exact Option.noConfusion hcontra
  | ok st1 =>
    have hfst : (sm.add_detector d1).1
        = { sm with detector_list := sm.detector_list ++ [d1],
                    stats_manager := some st1 } := by
      simp only [SceneManager.add_detector, hst, hreg]
    have hst1 : st1.registered_metrics = st.registered_metrics ++ d1.get_metrics := by
      unfold StatsManager.register_metrics at hreg
      by_cases hc : (d1.get_metrics.any fun k => st.registered_metrics.contains k) = true
      · rw [if_pos hc] at hreg
        exact Except.noConfusion hreg
      · rw [if_neg hc] at hreg
        cases hreg
        rfl
    have hex : ∃ x ∈ d2.get_metrics, x ∈ st1.registered_metrics :=
      ⟨name, hm2, by rw [hst1]; exact List.mem_append_right _ hm1⟩
    rw [hfst]
    constructor
    · simp [SceneManager.add_detector, StatsManager.register_metrics, hex]
    · simp [SceneManager.add_detector, StatsManager.register_metrics, hex]

/-- Witness for the amended claim C7: an orchestrator with an empty stats
manager, the same metric-registering detector added twice. -/
theorem add_detector_collision_amended_witness :
    (((SceneManager.mk [] [] (some ⟨[]⟩)).add_detector content_detector).1.add_detector
      content_detector).2.isSome = true ∧
    (((SceneManager.mk [] [] (some ⟨[]⟩)).add_detector content_detector).1.add_detector
      content_detector).1.cutting_list = [] :=
  add_detector_collision_amended (SceneManager.mk [] [] (some ⟨[]⟩)) ⟨[]⟩
    content_detector content_detector "content_val" rfl rfl (by decide) (by decide)

end PySceneDetect
